import Mathlib

/-!
# Shallow embedding of `src/shopee.py`

The script extracts a hierarchical category catalog from a paginated API,
flattens each raw category record into a fixed 7-field record, and writes
the accumulated sequence to three sinks (CSV, Excel, Postgres).

Modelling choices:
* A parsed JSON response body is modelled only as far as the script reads it:
  the presence of the `data.global_cats` array and the optional `data.total`
  count (`PageData`).  A `response.json()` call that raises is `Except.error`.
* The HTTP layer is a function `pages : Nat → Response` giving the response
  the server returns for each requested page number.  The extraction returns
  the list of page numbers actually requested together with the accumulated
  records, so that "issues exactly these requests" is statable.
* Python dicts preserve insertion order, so the flattened record built at
  lines 151-159 is modelled as an ordered association list
  `List (String × String)`.
* A raised-and-caught Python exception is `none` / an aborted loop; the
  `try`/`except` structure of the source is mirrored by the `Option` plumbing
  and by the `abort` outcome of a page step.
* The pandas / sqlalchemy effects inside the sink writers are abstracted by a
  boolean per sink (`SinkEnv`): `true` means the write would succeed, `false`
  that it raises (caught by the writer's `try`, which returns `False`).
  The empty-input early return at the top of each writer is modelled exactly.
-/

set_option autoImplicit false

namespace Shopee

/-- One entry of a raw record's `path` array.  The script reads only its
`category_name` key; `none` models a node dict missing that key (reading it
raises `KeyError` in Python). -/
structure PathNode where
  category_name : Option String
  deriving DecidableEq, Repr

/-- A raw category record as it appears in the `global_cats` array.
`none` in a field models that key being absent from the item dict:
the script reads each of them with `item.get(key, default)`. -/
structure Item where
  path : Option (List PathNode)
  category_id : Option String
  images : Option (List String)
  deriving DecidableEq, Repr

/-- The flattened record built at lines 151-159: a Python dict, i.e. an
insertion-ordered association list from field name to value. -/
abbrev FlatCategoryRecord := List (String × String)

/-- The canonical 7 column names, in the order of the dict literal at lines
151-159 (the same order as `colunas_esperadas` in the three sink writers). -/
def colunas_esperadas : List String :=
  ["categoria", "subcategoria", "3_nivel_categoria",
   "4_nivel_categoria", "5_nivel_categoria",
   "id_categoria", "imagem_categoria"]

/-- `path[i]["category_name"] if len(path) > i else ""` (lines 143-147).
`none` means the Python expression raises (node missing `category_name`). -/
def nivel (path : List PathNode) (i : Nat) : Option String :=
  if i < path.length then (path.get? i).bind PathNode.category_name
  else some ""

/-- The body of the per-item loop (lines 141-159): flatten one raw item.
`none` models the `except` branch at lines 161-163 being taken (the item is
skipped).  Reading `category_id` and `images` uses `.get` with a default and
cannot raise; reading a `path` node's name can. -/
def processar_item (item : Item) : Option FlatCategoryRecord :=
  let path := item.path.getD []
  match nivel path 0, nivel path 1, nivel path 2, nivel path 3, nivel path 4 with
  | some categoria, some subcategoria, some terceiro_nivel,
    some quarto_nivel, some quinto_nivel =>
      let id_categoria := item.category_id.getD ""
      let imagens := item.images.getD []
      let imagem_categoria := imagens.headD ""
      some [("categoria", categoria),
            ("subcategoria", subcategoria),
            ("3_nivel_categoria", terceiro_nivel),
            ("4_nivel_categoria", quarto_nivel),
            ("5_nivel_categoria", quinto_nivel),
            ("id_categoria", id_categoria),
            ("imagem_categoria", imagem_categoria)]
  | _, _, _, _, _ => none

/-- The inner `for item in itens` loop (lines 140-163): items whose
processing raises are skipped (`continue`), the rest are appended in order. -/
def processar_itens (itens : List Item) : List FlatCategoryRecord :=
  itens.filterMap processar_item

/-- The parts of a parsed JSON response body that the script reads:
`global_cats` is `some` exactly when both `"data" in data` and
`"global_cats" in data["data"]` hold (the shape check at lines 104 and 133),
and `total` is the optional `data["data"].get("total", 0)` count (line 109). -/
structure PageData where
  global_cats : Option (List Item)
  total : Option Nat
  deriving DecidableEq, Repr

instance decEqExceptPageData : DecidableEq (Except Unit PageData) := fun x y =>
  match x, y with
  | .error (), .error () => isTrue rfl
  | .ok a, .ok b =>
    if h : a = b then isTrue (by rw [h]) else isFalse (by simp [h])
  | .error _, .ok _ => isFalse (by simp)
  | .ok _, .error _ => isFalse (by simp)

/-- An HTTP response: its status code and the result of `response.json()`
(`Except.error ()` models the parse raising). -/
structure Response where
  status : Nat
  body : Except Unit PageData
  deriving DecidableEq, Repr

/-- What one iteration of the page loop does for a page `> 1`
(lines 118-135): request the page, then either skip it (`continue` on a
non-200 status, line 127-129, or on a missing `data.global_cats` shape,
lines 133-135), abort the whole run (`response.json()` raising escapes to
the outer `except` at line 170), or yield the page's processed items. -/
inductive PageOutcome where
  | items (l : List FlatCategoryRecord)
  | skip
  | abort
  deriving DecidableEq, Repr

/-- Classify the response of a page `> 1` (lines 120-138). -/
def pageStep (r : Response) : PageOutcome :=
  if r.status ≠ 200 then .skip
  else
    match r.body with
    | .error _ => .abort
    | .ok d =>
      match d.global_cats with
      | none => .skip
      | some itens => .items (processar_itens itens)

/-- The records a page `> 1` contributes to the accumulator. -/
def pageRecs (r : Response) : List FlatCategoryRecord :=
  match pageStep r with
  | .items l => l
  | _ => []

/-- The `for pagina in range(2, total_paginas + 1)` part of the loop at
lines 116-165, accumulating the requested page numbers and the records.
An `abort` (uncaught exception) returns what has accumulated so far
(lines 170-172). -/
def loopPaginas (pages : Nat → Response) :
    List Nat → List Nat × List FlatCategoryRecord →
    List Nat × List FlatCategoryRecord
  | [], acc => acc
  | p :: rest, (reqs, recs) =>
    match pageStep (pages p) with
    | .abort => (reqs ++ [p], recs)
    | .skip => loopPaginas pages rest (reqs ++ [p], recs)
    | .items l => loopPaginas pages rest (reqs ++ [p], recs ++ l)

/-- `total_paginas = (total_itens + tamanho_pagina - 1) // tamanho_pagina`
with `tamanho_pagina = 100` (lines 77 and 110). -/
def total_paginas (total_itens : Nat) : Nat :=
  (total_itens + 100 - 1) / 100

/-- `extrair_categorias_via_api` (lines 68-172), over an abstract server
`pages`.  Returns the list of page numbers requested (in request order) and
the accumulated flattened records.  The first request (page 1) is always
issued; a non-200 status (lines 97-99), a `response.json()` failure (caught
by the outer `except`, line 170, with nothing yet accumulated) or a missing
`data.global_cats` shape (lines 104-106) on it returns the empty list.
Otherwise `total_paginas` pages are processed: page 1 from the already
fetched body (line 118 skips re-requesting it), later pages via
`loopPaginas`. -/
def extrair_categorias_via_api (pages : Nat → Response) :
    List Nat × List FlatCategoryRecord :=
  let r1 := pages 1
  if r1.status ≠ 200 then ([1], [])
  else
    match r1.body with
    | .error _ => ([1], [])
    | .ok data1 =>
      match data1.global_cats with
      | none => ([1], [])
      | some itens1 =>
        let total_itens := data1.total.getD 0
        let tp := total_paginas total_itens
        if tp = 0 then ([1], [])
        else loopPaginas pages (List.range' 2 (tp - 1)) ([1], processar_itens itens1)

/-- The outcomes of the pandas / sqlalchemy effects inside the three sink
writers: `true` means the write succeeds, `false` that it raises and the
writer's `except` branch returns `False`. -/
structure SinkEnv where
  csv_ok : Bool
  excel_ok : Bool
  pg_ok : Bool
  deriving DecidableEq, Repr

/-- `salvar_csv` (lines 174-215): an empty record list returns `False`
immediately (lines 183-185); otherwise success is decided by whether the
DataFrame construction and `to_csv` write raise. -/
def salvar_csv (categorias : List FlatCategoryRecord) (env : SinkEnv) : Bool :=
  if categorias.isEmpty then false else env.csv_ok

/-- `salvar_excel` (lines 217-252): same structure as `salvar_csv`
(empty check at lines 226-228). -/
def salvar_excel (categorias : List FlatCategoryRecord) (env : SinkEnv) : Bool :=
  if categorias.isEmpty then false else env.excel_ok

/-- `salvar_postgres` (lines 254-291): same structure (empty check at
lines 260-262); the connection and `to_sql` replace-write are abstracted
by `env.pg_ok`. -/
def salvar_postgres (categorias : List FlatCategoryRecord) (env : SinkEnv) : Bool :=
  if categorias.isEmpty then false else env.pg_ok

/-- `main` (lines 293-315): extract, return `False` when nothing was
extracted (lines 301-303), else attempt all three sinks and succeed iff at
least one of them does (lines 306-315). -/
def main (pages : Nat → Response) (env : SinkEnv) : Bool :=
  let categorias := (extrair_categorias_via_api pages).snd
  if categorias.isEmpty then false
  else
    let sucesso_csv := salvar_csv categorias env
    let sucesso_excel := salvar_excel categorias env
    let sucesso_postgres := salvar_postgres categorias env
    sucesso_csv || sucesso_excel || sucesso_postgres

/-! ## Concrete test scenarios -/

/-- Scenario: the first page answers 200 but its body lacks the
`data.global_cats` shape; every later page is well-formed and non-empty. -/
def paginasPrimeiraSemShape : Nat → Response := fun p =>
  if p = 1 then ⟨200, Except.ok ⟨none, some 250⟩⟩
  else ⟨200, Except.ok ⟨some [⟨some [PathNode.mk (some "A")], some "7", none⟩],
    some 250⟩⟩

/-- Scenario: 250 items (3 pages); page 2 answers status 500, pages 1 and 3
are well-formed, each carrying one depth-1 item. -/
def paginasSegundaFalha : Nat → Response := fun p =>
  if p = 2 then ⟨500, Except.ok ⟨some [], some 250⟩⟩
  else ⟨200, Except.ok ⟨some [⟨some [PathNode.mk (some "A")], some "7", none⟩],
    some 250⟩⟩

/-! ## Helper lemmas -/

/-- On a path whose nodes all carry a name, `nivel` never fails and yields
the name at index `i` when in range, `""` otherwise. -/
theorem nivel_mapNames (names : List String) (i : Nat) :
    nivel (names.map fun n => PathNode.mk (some n)) i =
      some (if i < names.length then names.getD i "" else "") := by
  unfold nivel
  rw [List.length_map]
  rcases Nat.lt_or_ge i names.length with h | h
  · rw [if_pos h, if_pos h, List.get?_map, List.get?_eq_get h]
    simp [List.getD_eq_get?, List.get?_eq_get h, List.getElem?_eq_getElem h]
  · rw [if_neg (Nat.not_lt.mpr h), if_neg (Nat.not_lt.mpr h)]

/-- A successfully flattened item always carries exactly the 7 canonical
field names, in the order of the dict literal at lines 151-159. -/
theorem processar_item_keys (item : Item) (r : FlatCategoryRecord)
    (h : processar_item item = some r) :
    r.map Prod.fst = colunas_esperadas := by
  unfold processar_item at h
  dsimp only at h
  split at h
  · rw [Option.some_inj] at h
    subst h
    rfl
  · cases h

/-- Every record produced by the per-item loop has the canonical keys. -/
theorem processar_itens_keys (itens : List Item) (r : FlatCategoryRecord)
    (h : r ∈ processar_itens itens) :
    r.map Prod.fst = colunas_esperadas := by
  obtain ⟨item, _, hi⟩ := List.mem_filterMap.mp h
  exact processar_item_keys item r hi

/-- The records contributed by a page step all come from `processar_itens`. -/
theorem pageStep_items (resp : Response) (l : List FlatCategoryRecord)
    (h : pageStep resp = PageOutcome.items l) :
    ∃ itens, l = processar_itens itens := by
  unfold pageStep at h
  split at h
  · cases h
  · split at h
    · cases h
    · split at h
      · cases h
      · exact ⟨_, (PageOutcome.items.inj h).symm⟩

/-- Every record a page contributes has the canonical keys. -/
theorem pageRecs_keys (resp : Response) (r : FlatCategoryRecord)
    (h : r ∈ pageRecs resp) :
    r.map Prod.fst = colunas_esperadas := by
  unfold pageRecs at h
  cases hstep : pageStep resp with
  | items l =>
    rw [hstep] at h
    obtain ⟨itens, rfl⟩ := pageStep_items resp l hstep
    exact processar_itens_keys itens r h
  | skip => rw [hstep] at h; simp at h
  | abort => rw [hstep] at h; simp at h

/-- Closed form of the later-pages loop when no page makes `response.json()`
raise: every page is requested in order and contributes its own records. -/
theorem loopPaginas_no_abort (pages : Nat → Response) :
    ∀ (ps reqs : List Nat) (recs : List FlatCategoryRecord),
      (∀ p ∈ ps, pageStep (pages p) ≠ PageOutcome.abort) →
      loopPaginas pages ps (reqs, recs) =
        (reqs ++ ps, recs ++ (ps.map fun p => pageRecs (pages p)).flatten) := by
  intro ps
  induction ps with
  | nil => intro reqs recs _; simp [loopPaginas]
  | cons p rest ih =>
    intro reqs recs h
    have hp : pageStep (pages p) ≠ PageOutcome.abort := h p (List.mem_cons_self p rest)
    have hrest : ∀ q ∈ rest, pageStep (pages q) ≠ PageOutcome.abort :=
      fun q hq => h q (List.mem_cons_of_mem p hq)
    cases hstep : pageStep (pages p) with
    | abort => exact absurd hstep hp
    | skip =>
      simp only [loopPaginas, hstep]
      rw [ih (reqs ++ [p]) recs hrest]
      simp [pageRecs, hstep]
    | items l =>
      simp only [loopPaginas, hstep]
      rw [ih (reqs ++ [p]) (recs ++ l) hrest]
      simp [pageRecs, hstep]

/-- The canonical-keys property is preserved by the later-pages loop. -/
theorem loopPaginas_mem_keys (pages : Nat → Response) :
    ∀ (ps reqs : List Nat) (recs : List FlatCategoryRecord)
      (r : FlatCategoryRecord),
      (∀ x ∈ recs, x.map Prod.fst = colunas_esperadas) →
      r ∈ (loopPaginas pages ps (reqs, recs)).snd →
      r.map Prod.fst = colunas_esperadas := by
  intro ps
  induction ps with
  | nil => intro reqs recs r hacc hr; exact hacc r hr
  | cons p rest ih =>
    intro reqs recs r hacc hr
    unfold loopPaginas at hr
    cases hstep : pageStep (pages p) with
    | abort => rw [hstep] at hr; exact hacc r hr
    | skip => rw [hstep] at hr; exact ih _ _ r hacc hr
    | items l =>
      rw [hstep] at hr
      refine ih _ _ r ?_ hr
      intro x hx
      rcases List.mem_append.mp hx with hx | hx
      · exact hacc x hx
      · obtain ⟨itens, rfl⟩ := pageStep_items (pages p) l hstep
        exact processar_itens_keys itens x hx

/-- The extraction either returns `([1], [])` (first request failed, its
body did not parse, its shape was wrong, or no pages were to be processed),
or the first page was well-formed and the run is the later-pages loop seeded
with page 1's records. -/
theorem extrair_cases (pages : Nat → Response) :
    extrair_categorias_via_api pages = ([1], []) ∨
    ∃ itens1 t, pages 1 = ⟨200, Except.ok ⟨some itens1, t⟩⟩ ∧
      total_paginas (t.getD 0) ≠ 0 ∧
      extrair_categorias_via_api pages =
        loopPaginas pages (List.range' 2 (total_paginas (t.getD 0) - 1))
          ([1], processar_itens itens1) := by
  unfold extrair_categorias_via_api
  rcases h1 : pages 1 with ⟨st, bd⟩
  by_cases hst : st = 200
  · subst hst
    rw [if_neg (by simp)]
    cases bd with
    | error e => left; rfl
    | ok d =>
      obtain ⟨gc, tt⟩ := d
      cases gc with
      | none => left; rfl
      | some itens =>
        by_cases htp : total_paginas (tt.getD 0) = 0
        · left; simp [total_paginas] at htp ⊢; simp [htp]
        · right
          refine ⟨itens, tt, rfl, htp, ?_⟩
          simp only []
          rw [if_neg htp]
  · left; rw [if_pos hst]

/-- A non-200 status on the first request returns the empty list
(lines 97-99). -/
theorem extrair_first_bad_status (pages : Nat → Response)
    (h : (pages 1).status ≠ 200) :
    extrair_categorias_via_api pages = ([1], []) := by
  unfold extrair_categorias_via_api
  rw [if_pos h]

/-- A 200 first response whose body lacks `data.global_cats` returns the
empty list (lines 104-106). -/
theorem extrair_first_bad_shape (pages : Nat → Response) (t : Option Nat)
    (hst : (pages 1).status = 200)
    (hb : (pages 1).body = Except.ok ⟨none, t⟩) :
    extrair_categorias_via_api pages = ([1], []) := by
  unfold extrair_categorias_via_api
  dsimp only
  rw [hb]
  simp [hst]

/-- When the first page is well-formed and `total_paginas` is positive, the
extraction is the later-pages loop seeded with page 1's processed items. -/
theorem extrair_good_first (pages : Nat → Response) (itens1 : List Item)
    (t : Option Nat)
    (h1 : pages 1 = ⟨200, Except.ok ⟨some itens1, t⟩⟩)
    (htp : total_paginas (t.getD 0) ≠ 0) :
    extrair_categorias_via_api pages =
      loopPaginas pages (List.range' 2 (total_paginas (t.getD 0) - 1))
        ([1], processar_itens itens1) := by
  unfold extrair_categorias_via_api
  rw [h1]
  simp [htp]

/-- When the first page is well-formed but the page count is 0, the loop
never runs and the extraction is empty. -/
theorem extrair_zero_pages (pages : Nat → Response) (itens1 : List Item)
    (t : Option Nat)
    (h1 : pages 1 = ⟨200, Except.ok ⟨some itens1, t⟩⟩)
    (htp : total_paginas (t.getD 0) = 0) :
    extrair_categorias_via_api pages = ([1], []) := by
  unfold extrair_categorias_via_api
  rw [h1]
  simp [htp]

/-- A non-200 status on a later page only skips it (lines 127-129). -/
theorem pageStep_skip_of_bad_status (r : Response) (h : r.status ≠ 200) :
    pageStep r = PageOutcome.skip := by
  unfold pageStep
  rw [if_pos h]

/-- A missing `data.global_cats` shape on a later page only skips it
(lines 133-135). -/
theorem pageStep_skip_of_bad_shape (r : Response) (t : Option Nat)
    (hst : r.status = 200) (hb : r.body = Except.ok ⟨none, t⟩) :
    pageStep r = PageOutcome.skip := by
  unfold pageStep
  rw [if_neg (by simp [hst]), hb]

/-- Three-page scenario (250 items): when page 2 is skipped (bad status or
bad shape) and pages 1 and 3 are well-formed, the accumulated records are
exactly those of pages 1 and 3, in order. -/
theorem extrair_three_pages_mid_skip (pages : Nat → Response)
    (itens1 itens3 : List Item) (t3 : Option Nat)
    (h1 : pages 1 = ⟨200, Except.ok ⟨some itens1, some 250⟩⟩)
    (h2 : pageStep (pages 2) = PageOutcome.skip)
    (h3 : pages 3 = ⟨200, Except.ok ⟨some itens3, t3⟩⟩) :
    (extrair_categorias_via_api pages).snd =
      processar_itens itens1 ++ processar_itens itens3 := by
  have hstep3 : pageStep (pages 3) = PageOutcome.items (processar_itens itens3) := by
    rw [h3]
    rfl
  have hr : List.range' 2 (total_paginas ((some 250 : Option Nat).getD 0) - 1) = [2, 3] := rfl
  rw [extrair_good_first pages itens1 (some 250) h1 (by decide), hr]
  have hna : ∀ p ∈ ([2, 3] : List Nat), pageStep (pages p) ≠ PageOutcome.abort := by
    intro p hp
    rcases List.mem_cons.mp hp with rfl | hp
    · rw [h2]
      exact fun hc => PageOutcome.noConfusion hc
    · rcases List.mem_cons.mp hp with rfl | hp
      · rw [hstep3]
        exact fun hc => PageOutcome.noConfusion hc
      · cases hp
  rw [loopPaginas_no_abort pages [2, 3] [1] (processar_itens itens1) hna]
  simp [pageRecs, h2, hstep3]

/-! ## Claims -/

/-- C1: for every raw category record whose ancestry path has depth
`d ≤ 5` (all nodes carrying a name), the flattener succeeds and produces
the 5 level fields (`categoria`, `subcategoria`, `3_nivel_categoria`,
`4_nivel_categoria`, `5_nivel_categoria`) such that the field at index
`i < d` equals the name of path node `i` and every field at index `≥ d` is
the empty string. -/
theorem c1_flattener_level_fields (names : List String) (id_c : Option String)
    (imgs : Option (List String)) (hd : names.length ≤ 5) :
    ∃ r, processar_item ⟨some (names.map fun n => PathNode.mk (some n)), id_c, imgs⟩ =
        some r ∧
      (r.map Prod.snd).take 5 =
        (List.range 5).map fun i =>
          if i < names.length then names.getD i "" else "" := by
  refine ⟨[("categoria", if 0 < names.length then names.getD 0 "" else ""),
           ("subcategoria", if 1 < names.length then names.getD 1 "" else ""),
           ("3_nivel_categoria", if 2 < names.length then names.getD 2 "" else ""),
           ("4_nivel_categoria", if 3 < names.length then names.getD 3 "" else ""),
           ("5_nivel_categoria", if 4 < names.length then names.getD 4 "" else ""),
           ("id_categoria", id_c.getD ""),
           ("imagem_categoria", (imgs.getD []).headD "")], ?_, ?_⟩
  · simp only [processar_item, Option.getD_some, nivel_mapNames]
  · rfl

/-- Witness for C1: a concrete depth-2 record. -/
theorem c1_witness :
    (["Roupas", "Camisetas"] : List String).length ≤ 5 ∧
    ∃ r, processar_item ⟨some ((["Roupas", "Camisetas"] : List String).map
            fun n => PathNode.mk (some n)), some "42", some ["img"]⟩ = some r ∧
      (r.map Prod.snd).take 5 =
        (List.range 5).map fun i =>
          if i < (["Roupas", "Camisetas"] : List String).length
          then (["Roupas", "Camisetas"] : List String).getD i "" else "" :=
  ⟨by decide,
   c1_flattener_level_fields ["Roupas", "Camisetas"] (some "42") (some ["img"])
     (by decide)⟩

/-- C2: every flattened record accumulated into the extraction's result
sequence has exactly the 7 canonical fields, present and in the fixed
canonical order, whatever optional fields the source item had. -/
theorem c2_seven_canonical_fields (pages : Nat → Response)
    (r : FlatCategoryRecord)
    (h : r ∈ (extrair_categorias_via_api pages).snd) :
    r.map Prod.fst = colunas_esperadas := by
  rcases extrair_cases pages with heq | ⟨itens1, t, h1, htp, heq⟩
  · rw [heq] at h
    simp at h
  · rw [heq] at h
    exact loopPaginas_mem_keys pages _ _ _ r
      (fun x hx => processar_itens_keys itens1 x hx) h

/-- Witness for C2: a concrete one-page run whose single record (built from
an item with no `images` key) carries the 7 canonical fields. -/
theorem c2_witness :
    ([("categoria", "A"), ("subcategoria", ""), ("3_nivel_categoria", ""),
      ("4_nivel_categoria", ""), ("5_nivel_categoria", ""),
      ("id_categoria", "7"), ("imagem_categoria", "")] : FlatCategoryRecord) ∈
      (extrair_categorias_via_api fun _ =>
        ⟨200, Except.ok ⟨some [⟨some [PathNode.mk (some "A")], some "7", none⟩],
          some 1⟩⟩).snd ∧
    ([("categoria", "A"), ("subcategoria", ""), ("3_nivel_categoria", ""),
      ("4_nivel_categoria", ""), ("5_nivel_categoria", ""),
      ("id_categoria", "7"), ("imagem_categoria", "")] : FlatCategoryRecord).map
        Prod.fst = colunas_esperadas :=
  ⟨by decide,
   c2_seven_canonical_fields
     (fun _ => ⟨200, Except.ok ⟨some [⟨some [PathNode.mk (some "A")], some "7", none⟩],
       some 1⟩⟩)
     [("categoria", "A"), ("subcategoria", ""), ("3_nivel_categoria", ""),
      ("4_nivel_categoria", ""), ("5_nivel_categoria", ""),
      ("id_categoria", "7"), ("imagem_categoria", "")]
     (by decide)⟩

/-- C6 counterexample: an item whose identifier field (`category_id`) is
missing is NOT treated as a failure and NOT skipped: `item.get` defaults the
id to `""` and a record for it IS appended. -/
theorem c6_counterexample :
    processar_itens [⟨some [PathNode.mk (some "Roupas")], none, none⟩] =
      [[("categoria", "Roupas"), ("subcategoria", ""), ("3_nivel_categoria", ""),
        ("4_nivel_categoria", ""), ("5_nivel_categoria", ""),
        ("id_categoria", ""), ("imagem_categoria", "")]] := by
  decide

/-- C6 amended: a per-item exception during flattening (e.g. a path node
missing its `category_name` field) is caught individually: that item is
skipped, no record for it is appended, and the remaining items of the page
are processed as if it were not there.  (An item missing its identifier
field is not such a failure: its id defaults to the empty string.) -/
theorem c6_item_failure_skipped (xs ys : List Item) (bad : Item)
    (h : processar_item bad = none) :
    processar_itens (xs ++ bad :: ys) = processar_itens xs ++ processar_itens ys := by
  simp [processar_itens, List.filterMap_append, List.filterMap_cons, h]

/-- Witness for the amended C6: a node missing its name makes the item
fail; the records of the surrounding items are kept. -/
theorem c6_witness :
    processar_item ⟨some [PathNode.mk none], some "9", none⟩ = none ∧
    processar_itens ([⟨some [PathNode.mk (some "A")], some "7", none⟩] ++
        ⟨some [PathNode.mk none], some "9", none⟩ ::
          [⟨some [PathNode.mk (some "B")], none, none⟩]) =
      processar_itens [⟨some [PathNode.mk (some "A")], some "7", none⟩] ++
        processar_itens [⟨some [PathNode.mk (some "B")], none, none⟩] :=
  ⟨by decide, c6_item_failure_skipped _ _ _ (by decide)⟩

/-- C7: in every successfully flattened record, `imagem_categoria` is the
first entry of the item's image list when it is non-empty, and the empty
string when the list is empty or the `images` key absent. -/
theorem c7_imagem_categoria (item : Item) (r : FlatCategoryRecord)
    (h : processar_item item = some r) :
    r.lookup "imagem_categoria" =
      some (match item.images with
            | some (img :: _) => img
            | some [] => ""
            | none => "") := by
  unfold processar_item at h
  dsimp only at h
  split at h
  · rw [Option.some_inj] at h
    subst h
    rcases item with ⟨p, cid, imgs⟩
    rcases imgs with _ | ⟨_ | ⟨img, rest⟩⟩
    · rfl
    · rfl
    · rfl
  · cases h

/-- Witness for C7: a concrete item with two images. -/
theorem c7_witness :
    processar_item ⟨some [PathNode.mk (some "A")], some "7",
        some ["img1", "img2"]⟩ =
      some [("categoria", "A"), ("subcategoria", ""), ("3_nivel_categoria", ""),
            ("4_nivel_categoria", ""), ("5_nivel_categoria", ""),
            ("id_categoria", "7"), ("imagem_categoria", "img1")] ∧
    ([("categoria", "A"), ("subcategoria", ""), ("3_nivel_categoria", ""),
      ("4_nivel_categoria", ""), ("5_nivel_categoria", ""),
      ("id_categoria", "7"), ("imagem_categoria", "img1")] :
        FlatCategoryRecord).lookup "imagem_categoria" =
      some (match (some ["img1", "img2"] : Option (List String)) with
            | some (img :: _) => img
            | some [] => ""
            | none => "") :=
  ⟨by decide, c7_imagem_categoria ⟨some [PathNode.mk (some "A")], some "7",
      some ["img1", "img2"]⟩ _ (by decide)⟩

/-- C3: `total_paginas` is the ceiling of the item count over the fixed page
size 100 (stated as the Galois characterisation of the ceiling); in
particular a first response declaring 250 items gives 3 pages, and the run
issues exactly the 3 requests with page parameters 1, 2, 3 (provided no
later response makes `response.json()` raise, which would abort). -/
theorem c3_total_pages_ceiling_and_requests (pages : Nat → Response)
    (itens1 : List Item)
    (h1 : pages 1 = ⟨200, Except.ok ⟨some itens1, some 250⟩⟩)
    (hna : ∀ p, pageStep (pages p) ≠ PageOutcome.abort) :
    (∀ n k, total_paginas n ≤ k ↔ n ≤ 100 * k) ∧
    total_paginas 250 = 3 ∧
    (extrair_categorias_via_api pages).fst = [1, 2, 3] := by
  refine ⟨?_, rfl, ?_⟩
  · intro n k
    unfold total_paginas
    omega
  · rw [extrair_good_first pages itens1 (some 250) h1 (by decide)]
    rw [loopPaginas_no_abort pages _ [1] (processar_itens itens1)
      (fun p _ => hna p)]
    rfl

/-- Witness for C3: a server declaring 250 items on every page. -/
theorem c3_witness :
    (∀ n k, total_paginas n ≤ k ↔ n ≤ 100 * k) ∧
    total_paginas 250 = 3 ∧
    (extrair_categorias_via_api fun _ =>
      ⟨200, Except.ok ⟨some [], some 250⟩⟩).fst = [1, 2, 3] :=
  c3_total_pages_ceiling_and_requests
    (fun _ => ⟨200, Except.ok ⟨some [], some 250⟩⟩) [] rfl
    (fun p => by
      show pageStep ⟨200, Except.ok ⟨some [], some 250⟩⟩ ≠ PageOutcome.abort
      decide)

/-- C4 counterexample: on the FIRST page, a 200 response whose body lacks
the `data.global_cats` shape does not skip that page and continue — the
extraction aborts and returns the empty sequence, never requesting page 2,
even though page 2 holds a processable item. -/
theorem c4_counterexample :
    extrair_categorias_via_api paginasPrimeiraSemShape = ([1], []) ∧
    processar_itens [⟨some [PathNode.mk (some "A")], some "7", none⟩] ≠ [] := by
  constructor
  · decide
  · decide

/-- C4 amended: a missing `data.global_cats` shape aborts the run when it
happens on the first page (empty result), and on any later page it skips
only that page's items: in a 3-page run whose page 2 has a 200 status but a
shapeless body, the result is exactly the records of pages 1 and 3. -/
theorem c4_bad_shape_first_aborts_later_skips :
    (∀ (pages : Nat → Response) (t : Option Nat),
      (pages 1).status = 200 → (pages 1).body = Except.ok ⟨none, t⟩ →
      extrair_categorias_via_api pages = ([1], [])) ∧
    (∀ (pages : Nat → Response) (itens1 itens3 : List Item)
       (t2 t3 : Option Nat),
      pages 1 = ⟨200, Except.ok ⟨some itens1, some 250⟩⟩ →
      (pages 2).status = 200 → (pages 2).body = Except.ok ⟨none, t2⟩ →
      pages 3 = ⟨200, Except.ok ⟨some itens3, t3⟩⟩ →
      (extrair_categorias_via_api pages).snd =
        processar_itens itens1 ++ processar_itens itens3) := by
  constructor
  · intro pages t hst hb
    exact extrair_first_bad_shape pages t hst hb
  · intro pages itens1 itens3 t2 t3 h1 hst2 hb2 h3
    exact extrair_three_pages_mid_skip pages itens1 itens3 t3 h1
      (pageStep_skip_of_bad_shape (pages 2) t2 hst2 hb2) h3

/-- Witness for the amended C4: page 2 of 3 is shapeless; pages 1 and 3
each contribute their record; the shapeless-first-page case returns
nothing. -/
theorem c4_witness :
    extrair_categorias_via_api (fun _ => ⟨200, Except.ok ⟨none, some 9⟩⟩) =
      ([1], []) ∧
    (extrair_categorias_via_api fun p =>
        if p = 2 then ⟨200, Except.ok ⟨none, none⟩⟩
        else ⟨200, Except.ok ⟨some [⟨some [PathNode.mk (some "A")], some "7", none⟩],
          some 250⟩⟩).snd =
      processar_itens [⟨some [PathNode.mk (some "A")], some "7", none⟩] ++
        processar_itens [⟨some [PathNode.mk (some "A")], some "7", none⟩] :=
  ⟨c4_bad_shape_first_aborts_later_skips.1
     (fun _ => ⟨200, Except.ok ⟨none, some 9⟩⟩) (some 9) rfl rfl,
   c4_bad_shape_first_aborts_later_skips.2
     (fun p =>
        if p = 2 then ⟨200, Except.ok ⟨none, none⟩⟩
        else ⟨200, Except.ok ⟨some [⟨some [PathNode.mk (some "A")], some "7", none⟩],
          some 250⟩⟩)
     [⟨some [PathNode.mk (some "A")], some "7", none⟩]
     [⟨some [PathNode.mk (some "A")], some "7", none⟩]
     none (some 250) rfl rfl rfl rfl⟩

/-- C5: a non-200 status on the first page aborts the extraction with an
empty result, while a non-200 status on page 2 of 3 skips only that page:
the result is exactly the records of pages 1 and 3, and `main` still
succeeds whenever something was extracted and some sink write succeeds. -/
theorem c5_first_page_fatal_later_page_skipped :
    (∀ pages : Nat → Response, (pages 1).status ≠ 200 →
      extrair_categorias_via_api pages = ([1], [])) ∧
    (∀ (pages : Nat → Response) (env : SinkEnv) (itens1 itens3 : List Item)
       (t3 : Option Nat),
      pages 1 = ⟨200, Except.ok ⟨some itens1, some 250⟩⟩ →
      (pages 2).status ≠ 200 →
      pages 3 = ⟨200, Except.ok ⟨some itens3, t3⟩⟩ →
      (extrair_categorias_via_api pages).snd =
        processar_itens itens1 ++ processar_itens itens3 ∧
      ((extrair_categorias_via_api pages).snd ≠ [] →
        (env.csv_ok || env.excel_ok || env.pg_ok) = true →
        main pages env = true)) := by
  constructor
  · intro pages h
    exact extrair_first_bad_status pages h
  · intro pages env itens1 itens3 t3 h1 h2 h3
    refine ⟨extrair_three_pages_mid_skip pages itens1 itens3 t3 h1
      (pageStep_skip_of_bad_status (pages 2) h2) h3, ?_⟩
    intro hne hsink
    unfold main salvar_csv salvar_excel salvar_postgres
    have hie : ((extrair_categorias_via_api pages).snd).isEmpty = false := by
      cases hval : (extrair_categorias_via_api pages).snd with
      | nil => exact absurd hval hne
      | cons a as => rfl
    simp [hie, hsink]

/-- Witness for C5: page 2 of 3 answers 500; only the Excel sink
succeeds; the run still reports success.  A 404 on page 1 empties the run. -/
theorem c5_witness :
    extrair_categorias_via_api (fun _ => ⟨404, Except.ok ⟨none, none⟩⟩) =
      ([1], []) ∧
    (extrair_categorias_via_api paginasSegundaFalha).snd =
      processar_itens [⟨some [PathNode.mk (some "A")], some "7", none⟩] ++
        processar_itens [⟨some [PathNode.mk (some "A")], some "7", none⟩] ∧
    main paginasSegundaFalha ⟨false, true, false⟩ = true :=
  ⟨c5_first_page_fatal_later_page_skipped.1
     (fun _ => ⟨404, Except.ok ⟨none, none⟩⟩) (by decide),
   (c5_first_page_fatal_later_page_skipped.2 paginasSegundaFalha
      ⟨false, true, false⟩
      [⟨some [PathNode.mk (some "A")], some "7", none⟩]
      [⟨some [PathNode.mk (some "A")], some "7", none⟩]
      (some 250) rfl (by decide) rfl).1,
   (c5_first_page_fatal_later_page_skipped.2 paginasSegundaFalha
      ⟨false, true, false⟩
      [⟨some [PathNode.mk (some "A")], some "7", none⟩]
      [⟨some [PathNode.mk (some "A")], some "7", none⟩]
      (some 250) rfl (by decide) rfl).2 (by decide) (by decide)⟩

/-- C8: each of the three sink writers, given the empty record sequence,
returns failure (`false`); in the model they are total functions, so
nothing is raised. -/
theorem c8_empty_input_fails (env : SinkEnv) :
    salvar_csv [] env = false ∧ salvar_excel [] env = false ∧
    salvar_postgres [] env = false :=
  ⟨rfl, rfl, rfl⟩

/-- C9: `main` returns `true` iff the extraction produced at least one
record and at least one of the three sink writes succeeded; equivalently it
returns `false` exactly when nothing was extracted or all three sinks
failed. -/
theorem c9_main_success_iff (pages : Nat → Response) (env : SinkEnv) :
    main pages env = true ↔
      (extrair_categorias_via_api pages).snd ≠ [] ∧
        (salvar_csv (extrair_categorias_via_api pages).snd env = true ∨
         salvar_excel (extrair_categorias_via_api pages).snd env = true ∨
         salvar_postgres (extrair_categorias_via_api pages).snd env = true) := by
  cases hval : (extrair_categorias_via_api pages).snd with
  | nil => simp [main, hval, salvar_csv, salvar_excel, salvar_postgres]
  | cons a as => simp [main, hval, salvar_csv, salvar_excel, salvar_postgres, or_assoc]

/-- C10: a 200 first response with the expected shape but with no `total`
key (or with `total = 0`) yields `total_itens = 0`, hence `total_paginas = 0`:
the page loop never runs and even the first page's items are discarded —
the extraction returns the empty sequence. -/
theorem c10_zero_total_discards_first_page (pages : Nat → Response)
    (itens1 : List Item) (t : Option Nat)
    (h1 : pages 1 = ⟨200, Except.ok ⟨some itens1, t⟩⟩)
    (ht : t = none ∨ t = some 0) :
    total_paginas (t.getD 0) = 0 ∧
    extrair_categorias_via_api pages = ([1], []) := by
  have h0 : t.getD 0 = 0 := by rcases ht with rfl | rfl <;> rfl
  refine ⟨by rw [h0]; decide, ?_⟩
  exact extrair_zero_pages pages itens1 t h1 (by rw [h0]; decide)

/-- Witness for C10: a first page with one item but no `total` key. -/
theorem c10_witness :
    total_paginas ((none : Option Nat).getD 0) = 0 ∧
    extrair_categorias_via_api (fun _ =>
      ⟨200, Except.ok ⟨some [⟨some [PathNode.mk (some "A")], some "7", none⟩],
        none⟩⟩) = ([1], []) :=
  c10_zero_total_discards_first_page
    (fun _ => ⟨200, Except.ok ⟨some [⟨some [PathNode.mk (some "A")], some "7", none⟩],
      none⟩⟩)
    [⟨some [PathNode.mk (some "A")], some "7", none⟩] none rfl (Or.inl rfl)

end Shopee
